import Mathlib

/-!
Verification of the weather-dashboard TUI application (Rust sources:
`app.rs`, `handler.rs`, `connection.rs`, `main.rs`).  The Rust code is
shallowly embedded: structs become Lean structures, methods become pure
functions on the state, the network is an explicit oracle parameter, and
fallible operations return `Except`.
-/

namespace Weather

/-! ## JSON model (serde_json `Value`)

`f64` JSON numbers are modelled as `Rat`; the claims only exercise missing
keys and small integer values, where `Rat` agrees with `f64` exactly.
Objects are association lists (first binding wins, as in `serde_json`'s map
lookup with unique keys). -/

inductive Json where
  | null : Json
  | bool (b : Bool) : Json
  | num (q : Rat) : Json
  | str (s : String) : Json
  | arr (xs : List Json) : Json
  | obj (kvs : List (String × Json)) : Json

/-- Indexing `value[key]` on a `serde_json::Value`: field of an object, `Null` when
the key is absent or the value is not an object. -/
def Json.getKey : Json → String → Json
  | .obj kvs, k =>
    match kvs.find? (fun kv => kv.1 = k) with
    | some kv => kv.2
    | none => .null
  | _, _ => .null

/-- Indexing `value[i]` with a `usize` index: element of an array, `Null` when out of
bounds or the value is not an array. -/
def Json.getIdx : Json → Nat → Json
  | .arr xs, i => (xs.get? i).getD .null
  | _, _ => .null

/-- Method `Value::as_str`: `Some` only for JSON strings. -/
def Json.as_str : Json → Option String
  | .str s => some s
  | _ => none

/-- Method `Value::as_f64`: any JSON number, as a real value (modelled by `Rat`). -/
def Json.as_f64 : Json → Option Rat
  | .num q => some q
  | _ => none

/-- Method `Value::as_i64`: `Some` for integer numbers representable as `i64`. -/
def Json.as_i64 : Json → Option Int
  | .num q =>
    if q.den = 1 ∧ -(2 ^ 63) ≤ q.num ∧ q.num < 2 ^ 63 then some q.num else none
  | _ => none

/-- Method `Value::as_u64`: `Some` for non-negative integer numbers representable
as `u64`. -/
def Json.as_u64 : Json → Option Nat
  | .num q =>
    if q.den = 1 ∧ 0 ≤ q.num ∧ q.num < 2 ^ 64 then some q.num.toNat else none
  | _ => none

/-! ## chrono timestamps

Timestamps are modelled as seconds since the Unix epoch (`Int`).
`DateTime::from_timestamp(secs, 0)` is `Some` exactly for seconds within
chrono's representable year range (about ±262000 years).  The exact bounds
below never matter for the claims, which only evaluate timestamp `0`. -/

def chronoMinTimestamp : Int := -8334601228800

def chronoMaxTimestamp : Int := 8210266876799

/-- Function `chrono::DateTime::from_timestamp(secs, 0)`. -/
def fromTimestamp (secs : Int) : Option Int :=
  if chronoMinTimestamp ≤ secs ∧ secs ≤ chronoMaxTimestamp then some secs
  else none

/-! ## `CityInfo` (connection.rs) -/

/-- Detailed weather information for a city (struct `CityInfo` in
`connection.rs`).  `f64` fields are `Rat`; `u8`/`u16`/`u32` fields are `Nat`
(the truncating `as` casts in `get_data` reduce modulo the width);
`DateTime<Utc>` fields are epoch seconds. -/
structure CityInfo where
  name : String
  country : String
  temperature : Rat
  feels_like : Rat
  temp_min : Rat
  temp_max : Rat
  weather_main : String
  description : String
  icon : String
  humidity : Nat
  pressure : Nat
  wind_speed : Rat
  wind_direction : Nat
  visibility : Nat
  clouds : Nat
  sunrise : Option Int
  sunset : Option Int
  hourly_temps : Option (List Rat)
  timestamp : Int
deriving DecidableEq

/-- Call `Utc.timestamp(ts, 0)` (chrono `TimeZone::timestamp`): panics on an
out-of-range timestamp, modelled as `Except.error`. -/
def utcTimestamp (ts : Int) : Except String Int :=
  match fromTimestamp ts with
  | some t => .ok t
  | none => .error "invalid timestamp: panic"

/-- The struct-construction part of `get_data` (`connection.rs` lines
64–94): builds a `CityInfo` from the parsed JSON body of a successful
response.  `now` is the value `Utc::now()` would return.  The only fallible
subterms are the `Utc.timestamp` calls for `sunrise`/`sunset`, which panic
on a present but out-of-range value. -/
def buildCityInfo (now : Int) (weather_data : Json) : Except String CityInfo := do
  let sunrise ← match ((weather_data.getKey "sys").getKey "sunrise").as_i64 with
    | some ts => do pure (some (← utcTimestamp ts))
    | none => pure none
  let sunset ← match ((weather_data.getKey "sys").getKey "sunset").as_i64 with
    | some ts => do pure (some (← utcTimestamp ts))
    | none => pure none
  pure {
    name := ((weather_data.getKey "name").as_str.getD "Unknown")
    country := (((weather_data.getKey "sys").getKey "country").as_str.getD "--")
    temperature := (((weather_data.getKey "main").getKey "temp").as_f64.getD 0)
    feels_like := (((weather_data.getKey "main").getKey "feels_like").as_f64.getD 0)
    temp_min := (((weather_data.getKey "main").getKey "temp_min").as_f64.getD 0)
    temp_max := (((weather_data.getKey "main").getKey "temp_max").as_f64.getD 0)
    weather_main :=
      ((((weather_data.getKey "weather").getIdx 0).getKey "main").as_str.getD "Unknown")
    description :=
      ((((weather_data.getKey "weather").getIdx 0).getKey "description").as_str.getD "Unknown")
    icon := ((((weather_data.getKey "weather").getIdx 0).getKey "icon").as_str.getD "")
    humidity := (((weather_data.getKey "main").getKey "humidity").as_u64.getD 0) % 2 ^ 8
    pressure := (((weather_data.getKey "main").getKey "pressure").as_u64.getD 0) % 2 ^ 32
    wind_speed := (((weather_data.getKey "wind").getKey "speed").as_f64.getD 0)
    wind_direction := (((weather_data.getKey "wind").getKey "deg").as_u64.getD 0) % 2 ^ 16
    visibility := ((weather_data.getKey "visibility").as_u64.getD 0) % 2 ^ 32
    clouds := (((weather_data.getKey "clouds").getKey "all").as_u64.getD 0) % 2 ^ 8
    sunrise := sunrise
    sunset := sunset
    hourly_temps := none
    timestamp := (fromTimestamp ((weather_data.getKey "dt").as_i64.getD 0)).getD now
  }

/-! ## Application state (app.rs) -/

/-- Rust `str::trim`: the string with whitespace stripped from both ends.
Both Rust's `char::is_whitespace` and `Char.isWhitespace` accept the ASCII
whitespace characters the claims exercise. -/
def rustTrim (s : String) : String :=
  ⟨(((s.data.dropWhile Char.isWhitespace).reverse.dropWhile
      Char.isWhitespace).reverse)⟩

/-- Input mode for the application (`InputMode` in `app.rs`). -/
inductive InputMode where
  | Normal : InputMode
  | Editing : InputMode
deriving DecidableEq

/-- The application state (struct `App` in `app.rs`). -/
structure App where
  running : Bool
  api_key : String
  input_mode : InputMode
  input : String
  cities : List String
  selected_city : Nat
  current_weather : Option CityInfo
  fetch_requested : Bool
  terminal_size : Option (Nat × Nat)
deriving DecidableEq

namespace App

/-- Constructor `App::new` (`app.rs` lines 40–63). -/
def new : App where
  running := true
  api_key := "5d916a464e1dced7b9b26a4454d37d40"
  input_mode := .Normal
  input := ""
  cities := ["Bucharest", "London", "New York", "Budapest", "Tokyo",
             "Paris", "Berlin", "Moscow", "Sydney", "Toronto"]
  selected_city := 0
  current_weather := none
  fetch_requested := false
  terminal_size := none

/-- Method `App::enter_edit_mode`. -/
def enter_edit_mode (a : App) : App :=
  { a with input_mode := .Editing, input := "" }

/-- Method `App::exit_edit_mode`. -/
def exit_edit_mode (a : App) : App :=
  { a with input_mode := .Normal, input := "" }

/-- Method `App::request_weather_fetch`. -/
def request_weather_fetch (a : App) : App :=
  { a with fetch_requested := true }

/-- Method `App::refresh_weather`: delegates to `request_weather_fetch`. -/
def refresh_weather (a : App) : App :=
  a.request_weather_fetch

/-- Method `App::add_city`: trims the input; a non-empty trimmed string is pushed
onto `cities`, selected, and a fetch requested; in all cases the input is
cleared and the mode returns to `Normal`. -/
def add_city (a : App) : App :=
  let trimmed := rustTrim a.input
  let a' :=
    if trimmed ≠ "" then
      let a' := { a with cities := a.cities ++ [trimmed] }
      (({ a' with selected_city := a'.cities.length - 1 }).request_weather_fetch)
    else a
  { a' with input_mode := .Normal, input := "" }

/-- Method `App::handle_input`: pushes a character onto the input buffer. -/
def handle_input (a : App) (key : Char) : App :=
  { a with input := a.input.push key }

/-- Method `App::delete_char`: `String::pop` drops the last character (no-op when
empty). -/
def delete_char (a : App) : App :=
  { a with input := a.input.dropRight 1 }

/-- Method `App::next_city` (`app.rs` lines 108–114). -/
def next_city (a : App) : App :=
  if ¬a.cities.isEmpty then
    ({ a with selected_city := (a.selected_city + 1) % a.cities.length
     }).request_weather_fetch
  else a

/-- Method `App::previous_city` (`app.rs` lines 117–127). -/
def previous_city (a : App) : App :=
  if ¬a.cities.isEmpty then
    ({ a with selected_city :=
        if a.selected_city > 0 then a.selected_city - 1
        else a.cities.length - 1 }).request_weather_fetch
  else a

/-- Method `App::handle_resize`. -/
def handle_resize (a : App) (width height : Nat) : App :=
  { a with terminal_size := some (width, height) }

/-- Method `App::tick`: reserved hook, currently a no-op. -/
def tick (a : App) : App := a

/-- Method `App::remove_selected_city` (`app.rs` lines 166–179).  `Vec::remove`
is modelled by `List.eraseIdx`; they agree whenever
`selected_city < cities.length` (the documented invariant; out of range,
`Vec::remove` panics). -/
def remove_selected_city (a : App) : App :=
  if ¬a.cities.isEmpty then
    let a' := { a with cities := a.cities.eraseIdx a.selected_city }
    let a' :=
      if a'.selected_city ≥ a'.cities.length ∧ ¬a'.cities.isEmpty then
        { a' with selected_city := a'.cities.length - 1 }
      else a'
    if ¬a'.cities.isEmpty then a'.request_weather_fetch
    else { a' with current_weather := none }
  else a

/-- Method `App::fetch_weather` (`app.rs` lines 141–153).  The weather client
(`connection::get_data` plus the network) is the oracle parameter `net`;
the method returns its `AppResult<()>` alongside the updated state. -/
def fetch_weather (a : App) (net : String → Except String CityInfo) :
    Except String Unit × App :=
  match a.cities.get? a.selected_city with
  | some city =>
    match net city with
    | .ok weather => (.ok (), { a with current_weather := some weather })
    | .error e => (.error e, a)
  | none => (.ok (), a)

end App

/-! ## Key handling (handler.rs) -/

/-- The subset of `crossterm::event::KeyCode` the handler distinguishes. -/
inductive KeyCode where
  | char (c : Char) : KeyCode
  | esc : KeyCode
  | up : KeyCode
  | down : KeyCode
  | enter : KeyCode
  | backspace : KeyCode
  | other : KeyCode
deriving DecidableEq

/-- Function `handle_key_events` (`handler.rs`).  Faithful to the source: the `'d'`
branch inlines the remove-and-clamp part of deletion only (it neither
clears `current_weather` nor requests a fetch), and the `'r'` branch is a
placeholder that does nothing (the call to `refresh_weather` is commented
out). -/
def handle_key_events (key_code : KeyCode) (app : App) : App :=
  match app.input_mode with
  | .Normal =>
    match key_code with
    | .char 'q' => { app with running := false }
    | .esc => { app with running := false }
    | .up => app.previous_city
    | .down => app.next_city
    | .char 'a' => app.enter_edit_mode
    | .char 'd' =>
      if ¬app.cities.isEmpty then
        let app := { app with cities := app.cities.eraseIdx app.selected_city }
        if app.selected_city ≥ app.cities.length ∧ ¬app.cities.isEmpty then
          { app with selected_city := app.cities.length - 1 }
        else app
      else app
    | .char 'r' => app
    | _ => app
  | .Editing =>
    match key_code with
    | .esc => app.exit_edit_mode
    | .enter => app.add_city
    | .backspace => app.delete_char
    | .char c => app.handle_input c
    | _ => app

/-! ## Runtime loop pieces (main.rs) -/

/-- The event type consumed by the runtime loop (module `event`, used in
`main.rs`; the exhaustive match there shows exactly these four variants —
in particular there is no fetch-completion variant). -/
inductive Event where
  | tick : Event
  | key (code : KeyCode) : Event
  | mouse : Event
  | resize (width height : Nat) : Event
deriving DecidableEq

/-- The event-dispatch step of one loop iteration (`main.rs` lines 40–65). -/
def dispatchEvent (app : App) (e : Event) : App :=
  match e with
  | .key k => handle_key_events k app
  | .mouse => app
  | .resize w h => app.handle_resize w h
  | .tick => app.tick

/-- The fetch step of one loop iteration (`main.rs` lines 66–72): when
`fetch_requested` is set, the loop awaits `fetch_weather` (reporting any
error to stderr and otherwise ignoring it) and clears the flag. -/
def fetchPhase (app : App) (net : String → Except String CityInfo) : App :=
  if app.fetch_requested then
    let app' := (app.fetch_weather net).2
    { app' with fetch_requested := false }
  else app

/-! ## The selection invariant and sample states -/

/-- The documented selection invariant: `selected_city` is a valid index
whenever `cities` is non-empty. -/
def Inv (a : App) : Prop :=
  a.cities ≠ [] → a.selected_city < a.cities.length

instance (a : App) : Decidable (Inv a) := by
  unfold Inv; infer_instance

/-- A concrete weather record used by witnesses and counterexamples. -/
def sampleWeather : CityInfo where
  name := "Bucharest"
  country := "RO"
  temperature := 20
  feels_like := 19
  temp_min := 15
  temp_max := 25
  weather_main := "Clear"
  description := "clear sky"
  icon := "01d"
  humidity := 50
  pressure := 1013
  wind_speed := 3
  wind_direction := 180
  visibility := 10000
  clouds := 0
  sunrise := none
  sunset := none
  hourly_temps := none
  timestamp := 1700000000

/-- A state holding a single city together with cached weather for it. -/
def oneCityApp : App :=
  { App.new with cities := ["Bucharest"], current_weather := some sampleWeather }

/-- A state whose city list is empty. -/
def emptyApp : App := { App.new with cities := [] }

/-- A state in Editing mode with pending (padded) input. -/
def editingApp : App := { App.new with input_mode := .Editing, input := " Oslo " }

/-- The minimal JSON payload of the round-trip property. -/
def minimalJson : Json := .obj [("name", .str "X")]

/-! ## Claim theorems -/

/-- C8: on an empty city list, `next_city` and `previous_city` leave the
state unchanged; being total functions on the embedded state, they perform
no indexing at all (the guard fails before any index is formed). -/
theorem C8_empty_navigation_noop (a : App) (h : a.cities = []) :
    a.next_city = a ∧ a.previous_city = a := by
  unfold App.next_city App.previous_city
  simp [h]

theorem C8_empty_navigation_noop_witness :
    emptyApp.cities = [] ∧ emptyApp.next_city = emptyApp ∧
      emptyApp.previous_city = emptyApp :=
  ⟨rfl, (C8_empty_navigation_noop emptyApp rfl).1,
    (C8_empty_navigation_noop emptyApp rfl).2⟩

/-- C10: when `selected_city` does not refer to an existing city (in
particular on an empty list), `fetch_weather` returns `Ok(())` and leaves
the whole state unchanged, for every network oracle — so no request is
performed and `current_weather` is untouched. -/
theorem C10_fetch_without_city (a : App) (net : String → Except String CityInfo)
    (h : a.cities.get? a.selected_city = none) :
    a.fetch_weather net = (.ok (), a) := by
  unfold App.fetch_weather
  rw [h]

theorem C10_fetch_without_city_witness :
    emptyApp.cities.get? emptyApp.selected_city = none ∧
      emptyApp.fetch_weather (fun _ => .error "network down") = (.ok (), emptyApp) :=
  ⟨rfl, C10_fetch_without_city emptyApp (fun _ => .error "network down") rfl⟩

/-- C3: the refresh key `'r'` in Normal mode is a placeholder that leaves
the state unchanged — in particular `fetch_requested` stays `false` —
although the (never called) `App::refresh_weather` would set it, as the
claim requires. -/
theorem C3_refresh_key_is_noop :
    handle_key_events (.char 'r') App.new = App.new ∧
      App.new.fetch_requested = false ∧
      (App.new.refresh_weather).fetch_requested = true :=
  ⟨rfl, rfl, rfl⟩

/-- C2: pressing `'d'` on a one-city state empties the list, but the
handler's inlined deletion keeps the stale `current_weather` and never sets
`fetch_requested`, whereas `App::remove_selected_city` — the behaviour the
claim describes — clears the weather when the list becomes empty. -/
theorem C2_delete_key_divergence :
    (handle_key_events (.char 'd') oneCityApp).cities = [] ∧
      (handle_key_events (.char 'd') oneCityApp).current_weather
        = some sampleWeather ∧
      (handle_key_events (.char 'd') oneCityApp).fetch_requested = false ∧
      (oneCityApp.remove_selected_city).cities = [] ∧
      (oneCityApp.remove_selected_city).current_weather = none :=
  ⟨rfl, rfl, rfl, rfl, rfl⟩

/-- C9: building a `CityInfo` from a payload whose `sunrise`/`sunset` keys
are absent always succeeds (a missing key is defaulted, never a failure),
and the minimal payload `\x7b"name":"X"\x7d` yields the documented
placeholder in every other field (zero, `"Unknown"`, `"--"`, the empty
string, `none`; the timestamp falls back to the epoch). -/
theorem C9_minimal_payload_defaults (now : Int) (j : Json)
    (hr : ((j.getKey "sys").getKey "sunrise").as_i64 = none)
    (hs : ((j.getKey "sys").getKey "sunset").as_i64 = none) :
    (∃ info, buildCityInfo now j = .ok info) ∧
      buildCityInfo now minimalJson = .ok
        { name := "X", country := "--", temperature := 0, feels_like := 0,
          temp_min := 0, temp_max := 0, weather_main := "Unknown",
          description := "Unknown", icon := "", humidity := 0, pressure := 0,
          wind_speed := 0, wind_direction := 0, visibility := 0, clouds := 0,
          sunrise := none, sunset := none, hourly_temps := none,
          timestamp := 0 } := by
  constructor
  · unfold buildCityInfo
    simp only [hr, hs]
    exact ⟨_, rfl⟩
  · rfl

theorem C9_minimal_payload_defaults_witness :
    (∃ info, buildCityInfo 12345 minimalJson = .ok info) ∧
      buildCityInfo 12345 minimalJson = .ok
        { name := "X", country := "--", temperature := 0, feels_like := 0,
          temp_min := 0, temp_max := 0, weather_main := "Unknown",
          description := "Unknown", icon := "", humidity := 0, pressure := 0,
          wind_speed := 0, wind_direction := 0, visibility := 0, clouds := 0,
          sunrise := none, sunset := none, hourly_temps := none,
          timestamp := 0 } :=
  C9_minimal_payload_defaults 12345 minimalJson rfl rfl

/-- C6: in Editing mode, committing trims the input; a non-empty trimmed
string is appended to `cities`, selected (`selected_city` becomes the last
index of the extended list) and `fetch_requested` is set; an empty trimmed
string leaves `cities` unchanged; in both cases the input buffer is
cleared and the mode returns to Normal. -/
theorem C6_commit_trimmed_input (a : App) (_hmode : a.input_mode = .Editing) :
    (rustTrim a.input ≠ "" →
      a.add_city = { a with
        cities := a.cities ++ [rustTrim a.input],
        selected_city := (a.cities ++ [rustTrim a.input]).length - 1,
        fetch_requested := true,
        input := "",
        input_mode := .Normal }) ∧
    (rustTrim a.input = "" →
      a.add_city = { a with input := "", input_mode := .Normal }) := by
  constructor
  · intro h
    unfold App.add_city App.request_weather_fetch
    simp [h]
  · intro h
    unfold App.add_city
    simp [h]

theorem C6_commit_trimmed_input_witness :
    (editingApp.input_mode = InputMode.Editing ∧ rustTrim editingApp.input = "Oslo") ∧
      editingApp.add_city = { editingApp with
        cities := editingApp.cities ++ [rustTrim editingApp.input],
        selected_city := (editingApp.cities ++ [rustTrim editingApp.input]).length - 1,
        fetch_requested := true, input := "", input_mode := .Normal } :=
  ⟨⟨rfl, by decide⟩, (C6_commit_trimmed_input editingApp rfl).1 (by decide)⟩

/-- C7: a failed fetch surfaces the failure as an error value —
`fetch_weather` returns `Err(e)` and leaves the entire state (in
particular `current_weather`) unchanged — and the loop's fetch step keeps
`running` and `current_weather` intact, so the loop never stops because of
a fetch error. -/
theorem C7_fetch_error_stale_retention (a : App)
    (net : String → Except String CityInfo) (city e : String)
    (hcity : a.cities.get? a.selected_city = some city)
    (herr : net city = .error e) :
    (a.fetch_weather net).1 = .error e ∧
      (a.fetch_weather net).2 = a ∧
      (fetchPhase a net).current_weather = a.current_weather ∧
      (fetchPhase a net).running = a.running := by
  have hfw : a.fetch_weather net = (.error e, a) := by
    unfold App.fetch_weather
    rw [hcity]
    simp [herr]
  refine ⟨by rw [hfw], by rw [hfw], ?_, ?_⟩ <;>
  · unfold fetchPhase
    rw [hfw]
    split <;> rfl

theorem C7_fetch_error_stale_retention_witness :
    (oneCityApp.fetch_weather (fun _ => .error "boom")).1 = .error "boom" ∧
      (oneCityApp.fetch_weather (fun _ => .error "boom")).2 = oneCityApp ∧
      (fetchPhase oneCityApp (fun _ => .error "boom")).current_weather
        = oneCityApp.current_weather ∧
      (fetchPhase oneCityApp (fun _ => .error "boom")).running
        = oneCityApp.running :=
  C7_fetch_error_stale_retention oneCityApp (fun _ => .error "boom")
    "Bucharest" "boom" rfl rfl

/-! ## Navigation lemmas (for the cyclicity claim) -/

theorem next_city_cities (a : App) : a.next_city.cities = a.cities := by
  unfold App.next_city App.request_weather_fetch
  split <;> rfl

theorem next_city_selected (a : App) (h : a.cities ≠ []) :
    a.next_city.selected_city = (a.selected_city + 1) % a.cities.length := by
  unfold App.next_city App.request_weather_fetch
  rw [if_pos]
  simp [List.isEmpty_iff, h]

theorem previous_city_selected (a : App) (h : a.cities ≠ []) :
    a.previous_city.selected_city =
      if a.selected_city > 0 then a.selected_city - 1
      else a.cities.length - 1 := by
  unfold App.previous_city App.request_weather_fetch
  rw [if_pos]
  simp [List.isEmpty_iff, h]

theorem next_city_iterate (n : Nat) (a : App) (h : a.cities ≠ [])
    (hsel : a.selected_city < a.cities.length) :
    (App.next_city^[n] a).selected_city
        = (a.selected_city + n) % a.cities.length ∧
      (App.next_city^[n] a).cities = a.cities := by
  induction n generalizing a with
  | zero =>
    constructor
    · simp [Nat.mod_eq_of_lt hsel]
    · simp
  | succ n ih =>
    rw [Function.iterate_succ_apply]
    have hc := next_city_cities a
    have hs := next_city_selected a h
    have h' : a.next_city.cities ≠ [] := by rw [hc]; exact h
    have hlt : a.next_city.selected_city < a.next_city.cities.length := by
      rw [hc, hs]
      exact Nat.mod_lt _ (List.length_pos.mpr h)
    obtain ⟨ih1, ih2⟩ := ih a.next_city h' hlt
    refine ⟨?_, by rw [ih2, hc]⟩
    rw [ih1, hc, hs, Nat.mod_add_mod, Nat.add_assoc, Nat.add_comm 1 n]

/-- C5: on a non-empty list (with the documented selection invariant),
navigation is cyclic: `next_city` applied `cities.length` times restores
`selected_city`, a single `next_city` computes `(selected + 1) mod len`,
and a single `previous_city` computes `(selected - 1) mod len` (integer
modulus, so `0` wraps to `len - 1`). -/
theorem C5_navigation_cyclic (a : App) (h : a.cities ≠ [])
    (hsel : a.selected_city < a.cities.length) :
    (App.next_city^[a.cities.length] a).selected_city = a.selected_city ∧
      a.next_city.selected_city = (a.selected_city + 1) % a.cities.length ∧
      (a.previous_city.selected_city : Int)
        = ((a.selected_city : Int) - 1) % (a.cities.length : Int) := by
  refine ⟨?_, next_city_selected a h, ?_⟩
  · rw [(next_city_iterate a.cities.length a h hsel).1, Nat.add_mod_right,
      Nat.mod_eq_of_lt hsel]
  · have hlen : (0 : Int) < (a.cities.length : Int) := by
      exact_mod_cast List.length_pos.mpr h
    rw [previous_city_selected a h]
    split_ifs with hpos
    · have h1 : (1 : Int) ≤ (a.selected_city : Int) := by exact_mod_cast hpos
      have h2 : ((a.selected_city : Int) - 1) < (a.cities.length : Int) := by
        omega
      rw [Int.emod_eq_of_lt (by omega) h2]
      omega
    · have hz : a.selected_city = 0 := by omega
      rw [hz]
      have hlen1 : 1 ≤ a.cities.length := List.length_pos.mpr h
      have hstep : ((0 : Nat) : Int) - 1
          = ((a.cities.length : Int) - 1) + (a.cities.length : Int) * (-1) := by
        push_cast
        ring
      rw [hstep, Int.add_mul_emod_self_left,
        Int.emod_eq_of_lt (by omega) (by omega)]
      omega

theorem C5_navigation_cyclic_witness :
    (App.new.cities ≠ [] ∧ App.new.selected_city < App.new.cities.length) ∧
      (App.next_city^[App.new.cities.length] App.new).selected_city
        = App.new.selected_city ∧
      App.new.next_city.selected_city
        = (App.new.selected_city + 1) % App.new.cities.length ∧
      (App.new.previous_city.selected_city : Int)
        = ((App.new.selected_city : Int) - 1) % (App.new.cities.length : Int) :=
  ⟨⟨by decide, by decide⟩,
    C5_navigation_cyclic App.new (by decide) (by decide)⟩


/-! ## Invariant preservation (for the selection-invariant claim) -/

theorem previous_city_cities (a : App) : a.previous_city.cities = a.cities := by
  unfold App.previous_city App.request_weather_fetch
  split <;> rfl

theorem isEmpty_iff_length {α : Type} {l : List α} :
    l.isEmpty ↔ l.length = 0 := by
  cases l <;> simp

theorem Inv_next_city (a : App) : Inv a.next_city := by
  intro hne
  rw [next_city_cities] at hne ⊢
  rw [next_city_selected a hne]
  exact Nat.mod_lt _ (List.length_pos.mpr hne)

theorem Inv_previous_city (a : App) (h : Inv a) : Inv a.previous_city := by
  intro hne
  rw [previous_city_cities] at hne ⊢
  rw [previous_city_selected a hne]
  have hsel := h hne
  have hlen := List.length_pos.mpr hne
  split_ifs <;> omega

theorem Inv_add_city (a : App) (h : Inv a) : Inv a.add_city := by
  unfold App.add_city App.request_weather_fetch
  dsimp only
  split_ifs with ht <;> intro hne <;> dsimp only at hne ⊢
  · simp only [List.length_append, List.length_singleton]
    omega
  · exact h hne

theorem Inv_remove_selected_city (a : App) : Inv a.remove_selected_city := by
  unfold App.remove_selected_city App.request_weather_fetch
  dsimp only
  split_ifs with h1 h2 h3 h4 <;> intro hne <;>
    simp only [isEmpty_iff_length, ← List.length_pos] at * <;>
    omega

theorem Inv_handler_delete (a : App) :
    Inv (if ¬a.cities.isEmpty then
          let app := { a with cities := a.cities.eraseIdx a.selected_city }
          if app.selected_city ≥ app.cities.length ∧ ¬app.cities.isEmpty then
            { app with selected_city := app.cities.length - 1 }
          else app
        else a) := by
  dsimp only
  split_ifs with h1 h2 <;> intro hne <;>
    simp only [isEmpty_iff_length, ← List.length_pos] at * <;>
    omega

theorem Inv_handle_key_events (k : KeyCode) (a : App) (h : Inv a) :
    Inv (handle_key_events k a) := by
  unfold handle_key_events
  split
  · split
    · exact h
    · exact h
    · exact Inv_previous_city a h
    · exact Inv_next_city a
    · exact h
    · exact Inv_handler_delete a
    · exact h
    · exact h
  · split
    · exact h
    · exact Inv_add_city a h
    · exact h
    · exact h
    · exact h

theorem fetch_weather_preserves_list (a : App)
    (net : String → Except String CityInfo) :
    (a.fetch_weather net).2.cities = a.cities ∧
      (a.fetch_weather net).2.selected_city = a.selected_city := by
  unfold App.fetch_weather
  cases hg : a.cities.get? a.selected_city with
  | none => exact ⟨rfl, rfl⟩
  | some city =>
    dsimp only
    cases hn : net city with
    | ok w => exact ⟨rfl, rfl⟩
    | error e => exact ⟨rfl, rfl⟩

theorem Inv_fetch_weather (a : App) (net : String → Except String CityInfo)
    (h : Inv a) : Inv (a.fetch_weather net).2 := by
  intro hne
  obtain ⟨hc, hs⟩ := fetch_weather_preserves_list a net
  rw [hc] at hne ⊢
  rw [hs]
  exact h hne

theorem Inv_fetchPhase (a : App) (net : String → Except String CityInfo)
    (h : Inv a) : Inv (fetchPhase a net) := by
  unfold fetchPhase
  split_ifs with hf
  · exact Inv_fetch_weather a net h
  · exact h

/-- C4: the documented invariant `selected_city < cities.length` whenever
`cities` is non-empty holds in the initial state and is preserved by every
state-mutating operation: navigation, add/commit, delete, mode changes,
input editing, resize, tick, fetch requests, the key handler, and the
fetch steps. -/
theorem C4_selected_invariant_preserved :
    Inv App.new ∧
      ∀ a : App, Inv a →
        Inv a.next_city ∧ Inv a.previous_city ∧ Inv a.add_city ∧
          Inv a.enter_edit_mode ∧ Inv a.exit_edit_mode ∧
          (∀ c, Inv (a.handle_input c)) ∧ Inv a.delete_char ∧
          (∀ width height, Inv (a.handle_resize width height)) ∧
          Inv a.tick ∧ Inv a.request_weather_fetch ∧ Inv a.refresh_weather ∧
          Inv a.remove_selected_city ∧
          (∀ k, Inv (handle_key_events k a)) ∧
          (∀ net, Inv (a.fetch_weather net).2) ∧
          (∀ net, Inv (fetchPhase a net)) := by
  refine ⟨by decide, fun a h => ?_⟩
  exact ⟨Inv_next_city a, Inv_previous_city a h, Inv_add_city a h, h, h,
    fun _ => h, h, fun _ _ => h, h, h, h, Inv_remove_selected_city a,
    fun k => Inv_handle_key_events k a h, fun net => Inv_fetch_weather a net h,
    fun net => Inv_fetchPhase a net h⟩

theorem C4_selected_invariant_preserved_witness :
    Inv (handle_key_events (.char 'd') App.new) := by
  obtain ⟨-, -, -, -, -, -, -, -, -, -, -, -, hk, -, -⟩ :=
    C4_selected_invariant_preserved.2 App.new (by decide)
  exact hk (.char 'd')

end Weather
